import Mathlib

/-!
Shallow embedding of the two Playwright verification scripts of this
repository: `verify_demo.py` and `verification/verify_dashboard.py`.

Each script is a straight-line sequence of calls into the external
browser-automation library.  The library is modelled as a world record
fixing the outcome of every external call (browser launch, page creation,
navigation, selector wait, attribute read, screenshot).  A run of a script
is then a pure function from that world to the ordered trace of observable
events together with either normal completion or a propagated Python
exception.  Python semantics that matter here: a `with` block runs its
context exit on every path and re-raises; `try`/`finally` runs the
`finally` block on every path; a bare `except:` catches every exception;
the membership test `pat in value` raises `TypeError` when `value` is
`None` and otherwise checks substring containment.
-/

/-- Python exception values that can arise in the two scripts. -/
inductive PyErr where
  /-- the browser process failed to start (`p.chromium.launch`). -/
  | launchError
  /-- `browser.new_page()` failed. -/
  | pageError
  /-- `page.goto` failed: target URL unreachable or invalid. -/
  | navigationError
  /-- `page.wait_for_selector` timed out. -/
  | timeoutError
  /-- the `TypeError` raised by evaluating `"..." in None`. -/
  | typeError
  /-- `page.screenshot` failed. -/
  | screenshotError
  /-- any other exception, tagged by an arbitrary code. -/
  | otherError (code : Nat)
  deriving DecidableEq

/-- Observable events of a script run, listed in program order. -/
inductive Ev where
  /-- a line written to standard output by `print`. -/
  | printed (line : String)
  /-- `page.goto` completed on the given URL. -/
  | navigated (url : String)
  /-- `page.wait_for_selector` was invoked with the given selector and timeout in milliseconds. -/
  | waitedFor (selector : String) (timeoutMs : Nat)
  /-- `os.makedirs(path, exist_ok=True)` ran. -/
  | madeDirs (path : String)
  /-- `page.screenshot` wrote the file at the given path. -/
  | wroteScreenshot (path : String)
  /-- `browser.close()` ran. -/
  | closedBrowser
  /-- the `with sync_playwright()` block exited, stopping the driver. -/
  | stoppedPlaywright
  deriving DecidableEq

/-- Contiguous containment of `p` in a character list, by scanning every
suffix; this is the semantics of the Python substring test. -/
def listContains (p : List Char) : List Char → Bool
  | [] => p.isEmpty
  | c :: rest => p.isPrefixOf (c :: rest) || listContains p rest

/-- Python string membership `pat in s`: `true` iff `pat` occurs
contiguously inside `s`. -/
def strContains (s pat : String) : Bool :=
  listContains pat.data s.data

/-- Outcomes of the external calls made by `verify_demo.py`, together with
the current working directory returned by `os.getcwd()`. -/
structure DemoWorld where
  /-- `os.getcwd()`. -/
  cwd : String
  /-- whether `p.chromium.launch()` succeeds. -/
  launchOk : Bool
  /-- whether `browser.new_page()` succeeds. -/
  newPageOk : Bool
  /-- whether `page.goto(file_path)` succeeds. -/
  gotoOk : Bool
  /-- result of `page.locator("video source").get_attribute("src")`: a string, or `none` for Python `None`. -/
  srcAttr : Option String
  /-- whether `page.screenshot(path=screenshot_path)` succeeds and writes the file. -/
  screenshotOk : Bool

namespace VerifyDemo

/-- the target URL computed by `verify_demo.py` from the working directory. -/
def filePath (cwd : String) : String :=
  "file://" ++ cwd ++ "/docs/demo.html"

/-- the body of the `with sync_playwright() as p` block of `run`: launch,
new page, print, goto, attribute read, membership test, verdict print,
`os.makedirs`, screenshot, final print, `browser.close()`.  There is no
`try`/`finally`, so any exception skips everything after it, including the
close. -/
def body (w : DemoWorld) : List Ev × Except PyErr Unit :=
  if w.launchOk then
    if w.newPageOk then
      let url := filePath w.cwd
      let t1 : List Ev := [Ev.printed ("Navigating to " ++ url)]
      if w.gotoOk then
        let t2 := t1 ++ [Ev.navigated url]
        match w.srcAttr with
        | none =>
            (t2 ++ [Ev.printed "Video source: None"], Except.error PyErr.typeError)
        | some v =>
            let t3 := t2 ++ [Ev.printed ("Video source: " ++ v)]
            let verdict :=
              if strContains v "assets/demo.mp4" then "SUCCESS: Video source is correct."
              else "FAILURE: Video source is incorrect."
            let t4 := t3 ++ [Ev.printed verdict, Ev.madeDirs "verification"]
            if w.screenshotOk then
              (t4 ++ [Ev.wroteScreenshot "verification/demo_page.png",
                      Ev.printed "Screenshot saved to verification/demo_page.png",
                      Ev.closedBrowser], Except.ok ())
            else (t4, Except.error PyErr.screenshotError)
      else (t1, Except.error PyErr.navigationError)
    else ([], Except.error PyErr.pageError)
  else ([], Except.error PyErr.launchError)

/-- `run()`: the body runs inside `with sync_playwright()`; the context
exit runs on every path and re-raises any pending exception. -/
def run (w : DemoWorld) : List Ev × Except PyErr Unit :=
  ((body w).1 ++ [Ev.stoppedPlaywright], (body w).2)

/-- the process exit code of `python verify_demo.py`: 0 on normal
completion of `run()`, 1 when an uncaught exception propagates, per the
default behaviour of the Python runtime. -/
def exitCode (w : DemoWorld) : Nat :=
  match (run w).2 with
  | Except.ok _ => 0
  | Except.error _ => 1

end VerifyDemo

/-- Outcomes of the external calls made by `verification/verify_dashboard.py`. -/
structure DashWorld where
  /-- whether `p.chromium.launch(headless=True)` succeeds. -/
  launchOk : Bool
  /-- whether `browser.new_page()` succeeds. -/
  newPageOk : Bool
  /-- whether `page.goto("http://localhost:3000/mobile")` succeeds. -/
  gotoOk : Bool
  /-- outcome of `page.wait_for_selector(".t-pending", timeout=5000)`: success, or the exception it raised. -/
  waitRes : Except PyErr Unit
  /-- whether `page.screenshot(path=...)` succeeds and writes the file. -/
  screenshotOk : Bool

namespace VerifyDashboard

/-- `verify(page)`: goto, a selector wait whose exceptions are all caught
by the bare `except:` clause (which prints a diagnostic), then the
screenshot. -/
def verify (w : DashWorld) : List Ev × Except PyErr Unit :=
  if w.gotoOk then
    let t1 : List Ev := [Ev.navigated "http://localhost:3000/mobile",
                         Ev.waitedFor ".t-pending" 5000]
    let t2 :=
      match w.waitRes with
      | Except.ok _ => t1
      | Except.error _ =>
          t1 ++ [Ev.printed "Timeout waiting for tips, taking screenshot anyway"]
    if w.screenshotOk then
      (t2 ++ [Ev.wroteScreenshot "verification/dashboard_mobile_after_fix.png"],
       Except.ok ())
    else (t2, Except.error PyErr.screenshotError)
  else ([], Except.error PyErr.navigationError)

/-- the `__main__` block: inside `with sync_playwright()`, launch and page
creation happen before the `try`, then `verify(page)` runs under
`try`/`finally` whose `finally` is `browser.close()`. -/
def main (w : DashWorld) : List Ev × Except PyErr Unit :=
  if w.launchOk then
    if w.newPageOk then
      ((verify w).1 ++ [Ev.closedBrowser, Ev.stoppedPlaywright], (verify w).2)
    else ([Ev.stoppedPlaywright], Except.error PyErr.pageError)
  else ([Ev.stoppedPlaywright], Except.error PyErr.launchError)

/-- the process exit code of `python verification/verify_dashboard.py`. -/
def exitCode (w : DashWorld) : Nat :=
  match (main w).2 with
  | Except.ok _ => 0
  | Except.error _ => 1

end VerifyDashboard

/-- true exactly on directory-creation events. -/
def isMkdirEv : Ev → Bool
  | Ev.madeDirs _ => true
  | _ => false

/-- true exactly on screenshot-write events. -/
def isShotEv : Ev → Bool
  | Ev.wroteScreenshot _ => true
  | _ => false

/-- number of `os.makedirs` calls in a trace. -/
def mkdirCount (t : List Ev) : Nat :=
  (t.filter isMkdirEv).length

/-- number of screenshot files written in a trace. -/
def shotCount (t : List Ev) : Nat :=
  (t.filter isShotEv).length

/-- true exactly on browser-close events. -/
def isCloseEv : Ev → Bool
  | Ev.closedBrowser => true
  | _ => false

/-- number of `browser.close()` calls in a trace. -/
def closeCount (t : List Ev) : Nat :=
  (t.filter isCloseEv).length

/-- a string whose first character is `c1` differs from `p ++ u` whenever
`p ++ u` starts with a different character `c2`; used to separate the
verdict lines from the other printed lines, whose tails are symbolic. -/
theorem lit_ne_append (t p u : String) (c1 c2 : Char)
    (h1 : t.data.head? = some c1)
    (h2 : (p.data ++ u.data).head? = some c2)
    (hne : c1 ≠ c2) : t ≠ p ++ u := by
  intro he
  apply hne
  have hd := congrArg String.data he
  have hpu : (p ++ u).data = p.data ++ u.data := by simp
  rw [hpu] at hd
  rw [hd, h2] at h1
  exact (Option.some.injEq _ _ ▸ h1).symm

/-- the SUCCESS verdict line differs from every navigation line. -/
theorem success_ne_nav (u : String) :
    "SUCCESS: Video source is correct." ≠ "Navigating to " ++ u :=
  lit_ne_append _ _ _ 'S' 'N' rfl rfl (by decide)

/-- the SUCCESS verdict line differs from every attribute-echo line. -/
theorem success_ne_src (u : String) :
    "SUCCESS: Video source is correct." ≠ "Video source: " ++ u :=
  lit_ne_append _ _ _ 'S' 'V' rfl rfl (by decide)

/-- the FAILURE verdict line differs from every navigation line. -/
theorem failure_ne_nav (u : String) :
    "FAILURE: Video source is incorrect." ≠ "Navigating to " ++ u :=
  lit_ne_append _ _ _ 'F' 'N' rfl rfl (by decide)

/-- the FAILURE verdict line differs from every attribute-echo line. -/
theorem failure_ne_src (u : String) :
    "FAILURE: Video source is incorrect." ≠ "Video source: " ++ u :=
  lit_ne_append _ _ _ 'F' 'V' rfl rfl (by decide)

/-- on a run of `verify_demo.py` where launch, page creation and
navigation succeed and the attribute read yields the string `v`, the
SUCCESS verdict is printed exactly when `v` contains the expected
substring. -/
theorem demo_success_mem_iff (w : DemoWorld) (v : String)
    (h1 : w.launchOk = true) (h2 : w.newPageOk = true) (h3 : w.gotoOk = true)
    (ha : w.srcAttr = some v) :
    (Ev.printed "SUCCESS: Video source is correct." ∈ (VerifyDemo.run w).1)
      ↔ strContains v "assets/demo.mp4" = true := by
  cases hs : w.screenshotOk <;> cases hc : strContains v "assets/demo.mp4" <;>
    simp +decide [VerifyDemo.run, VerifyDemo.body, h1, h2, h3, ha, hs, hc,
      success_ne_nav, success_ne_src]

/-- on the same runs, the FAILURE verdict is printed exactly when `v` does
not contain the expected substring. -/
theorem demo_failure_mem_iff (w : DemoWorld) (v : String)
    (h1 : w.launchOk = true) (h2 : w.newPageOk = true) (h3 : w.gotoOk = true)
    (ha : w.srcAttr = some v) :
    (Ev.printed "FAILURE: Video source is incorrect." ∈ (VerifyDemo.run w).1)
      ↔ strContains v "assets/demo.mp4" = false := by
  cases hs : w.screenshotOk <;> cases hc : strContains v "assets/demo.mp4" <;>
    simp +decide [VerifyDemo.run, VerifyDemo.body, h1, h2, h3, ha, hs, hc,
      failure_ne_nav, failure_ne_src]

/-- `List.isPrefixOf` over characters decides the existence of a
completing suffix. -/
theorem isPrefixOf_iff_exists (p : List Char) :
    ∀ s : List Char, p.isPrefixOf s = true ↔ ∃ t, p ++ t = s := by
  induction p with
  | nil =>
      intro s
      simp [List.isPrefixOf]
  | cons a p ih =>
      intro s
      cases s with
      | nil => simp [List.isPrefixOf]
      | cons b s =>
          rw [List.isPrefixOf_cons₂]
          simp only [Bool.and_eq_true, beq_iff_eq, ih, List.cons_append,
            List.cons.injEq, exists_and_left]

/-- `listContains p l` decides contiguous containment: it is `true` exactly
when `l` splits as `l1 ++ p ++ l2`. -/
theorem listContains_iff (p : List Char) :
    ∀ l : List Char, listContains p l = true ↔ ∃ l1 l2, l = l1 ++ p ++ l2 := by
  intro l
  induction l with
  | nil =>
      simp only [listContains, List.isEmpty_iff]
      constructor
      · rintro rfl
        exact ⟨[], [], rfl⟩
      · rintro ⟨l1, l2, h⟩
        rcases List.append_eq_nil.mp h.symm with ⟨h1, h2⟩
        exact (List.append_eq_nil.mp h1).2
  | cons c rest ih =>
      simp only [listContains, Bool.or_eq_true, isPrefixOf_iff_exists, ih]
      constructor
      · rintro (⟨t, ht⟩ | ⟨l1, l2, hl⟩)
        · exact ⟨[], t, by simp [ht]⟩
        · exact ⟨c :: l1, l2, by simp [hl]⟩
      · rintro ⟨l1, l2, hl⟩
        cases l1 with
        | nil =>
            exact Or.inl ⟨l2, by simpa using hl.symm⟩
        | cons d l1 =>
            refine Or.inr ⟨l1, l2, ?_⟩
            simpa using (List.cons.inj (by simpa using hl)).2

/-- `strContains` is the substring relation on the underlying character
lists. -/
theorem strContains_iff (s pat : String) :
    strContains s pat = true ↔ ∃ l1 l2, s.data = l1 ++ pat.data ++ l2 :=
  listContains_iff pat.data s.data

/-- Claim C1, counterexample: in `verify_demo.py` there is no
`try`/`finally`, so at a world where launch, page creation, navigation and
the attribute read succeed but the screenshot step raises, the exception
propagates and `browser.close()` never runs, refuting the claim that the
session is closed exactly once on every exit path of either script. -/
theorem C1_demo_close_skipped_cex :
    (VerifyDemo.run (DemoWorld.mk "/repo" true true true (some "assets/demo.mp4") false)).2
      = Except.error PyErr.screenshotError ∧
    closeCount
      (VerifyDemo.run (DemoWorld.mk "/repo" true true true (some "assets/demo.mp4") false)).1
      = 0 :=
  ⟨rfl, rfl⟩

/-- Claim C1, amended: once launch and page creation succeed, the dashboard
script closes the browser exactly once on every exit path, thanks to its
`try`/`finally`; the demo script closes it exactly once when navigation,
the attribute read (non-None) and the screenshot all succeed, and zero
times when any of them raises, the cleanup then falling to the playwright
context exit alone. -/
theorem C1_close_exactly_once_amended :
    (∀ w : DashWorld, w.launchOk = true → w.newPageOk = true →
        closeCount (VerifyDashboard.main w).1 = 1) ∧
    (∀ w : DemoWorld, w.launchOk = true → w.newPageOk = true →
        closeCount (VerifyDemo.run w).1 =
          if w.gotoOk && w.srcAttr.isSome && w.screenshotOk then 1 else 0) := by
  constructor
  · intro w h1 h2
    rcases hw : w.waitRes with u | e <;> cases h3 : w.gotoOk <;> cases hs : w.screenshotOk <;>
      simp [VerifyDashboard.main, VerifyDashboard.verify, closeCount, isCloseEv,
        h1, h2, h3, hs, hw]
  · intro w h1 h2
    cases h3 : w.gotoOk <;> rcases ha : w.srcAttr with _ | v <;> cases hs : w.screenshotOk <;>
      simp [VerifyDemo.run, VerifyDemo.body, closeCount, isCloseEv, h1, h2, h3, ha, hs]

/-- Claim C1, witness for the amended theorem at a concrete world. -/
theorem C1_close_exactly_once_amended_witness :
    closeCount (VerifyDashboard.main (DashWorld.mk true true false (Except.ok ()) true)).1 = 1 :=
  C1_close_exactly_once_amended.1 (DashWorld.mk true true false (Except.ok ()) true) rfl rfl

/-- Claim C2, counterexample: when the attribute read returns `None`, the
membership test `"assets/demo.mp4" in video_source` raises `TypeError`,
so the comparison does raise and neither verdict is printed, refuting the
never-an-exception part of the claim. -/
theorem C2_none_attr_raises_cex :
    (VerifyDemo.run (DemoWorld.mk "/home/user" true true true none true)).2
      = Except.error PyErr.typeError ∧
    Ev.printed "SUCCESS: Video source is correct."
      ∉ (VerifyDemo.run (DemoWorld.mk "/home/user" true true true none true)).1 ∧
    Ev.printed "FAILURE: Video source is incorrect."
      ∉ (VerifyDemo.run (DemoWorld.mk "/home/user" true true true none true)).1 := by
  refine ⟨rfl, ?_, ?_⟩ <;> decide

/-- Claim C2, amended: when the attribute read yields a string value, the
run prints SUCCESS exactly when the value contains the expected substring,
prints FAILURE exactly otherwise, and the comparison raises nothing; when
the attribute read yields `None`, the run raises `TypeError` instead. -/
theorem C2_classification_amended :
    (∀ w : DemoWorld, ∀ v : String,
        w.launchOk = true → w.newPageOk = true → w.gotoOk = true →
        w.srcAttr = some v →
        ((Ev.printed "SUCCESS: Video source is correct." ∈ (VerifyDemo.run w).1)
            ↔ strContains v "assets/demo.mp4" = true) ∧
        ((Ev.printed "FAILURE: Video source is incorrect." ∈ (VerifyDemo.run w).1)
            ↔ strContains v "assets/demo.mp4" = false) ∧
        (VerifyDemo.run w).2 ≠ Except.error PyErr.typeError) ∧
    (∀ w : DemoWorld,
        w.launchOk = true → w.newPageOk = true → w.gotoOk = true →
        w.srcAttr = none →
        (VerifyDemo.run w).2 = Except.error PyErr.typeError) := by
  constructor
  · intro w v h1 h2 h3 ha
    refine ⟨demo_success_mem_iff w v h1 h2 h3 ha,
            demo_failure_mem_iff w v h1 h2 h3 ha, ?_⟩
    cases hs : w.screenshotOk <;>
      simp [VerifyDemo.run, VerifyDemo.body, h1, h2, h3, ha, hs]
  · intro w h1 h2 h3 ha
    simp [VerifyDemo.run, VerifyDemo.body, h1, h2, h3, ha]

/-- Claim C2, witness for the amended theorem at a concrete world. -/
theorem C2_classification_amended_witness :
    (VerifyDemo.run (DemoWorld.mk "/w2" true true true none true)).2
      = Except.error PyErr.typeError :=
  C2_classification_amended.2 (DemoWorld.mk "/w2" true true true none true) rfl rfl rfl rfl

/-- Claim C3, counterexample: at a world where the session opened and
navigation completed but the attribute read returns `None`, the demo run
aborts before the screenshot step, so no screenshot is written. -/
theorem C3_no_screenshot_cex :
    (DemoWorld.mk "/srv" true true true none true).launchOk = true ∧
    (DemoWorld.mk "/srv" true true true none true).gotoOk = true ∧
    shotCount (VerifyDemo.run (DemoWorld.mk "/srv" true true true none true)).1 = 0 :=
  ⟨rfl, rfl, rfl⟩

/-- Claim C3, amended: after a successful launch, page creation and
navigation, and with a screenshot call that succeeds, the dashboard run
writes exactly one screenshot at its requested path whatever the selector
wait did, and the demo run does so as well provided the attribute read
yields a string, whatever that string is. -/
theorem C3_screenshot_always_written_amended :
    (∀ w : DashWorld, w.launchOk = true → w.newPageOk = true → w.gotoOk = true →
        w.screenshotOk = true →
        Ev.wroteScreenshot "verification/dashboard_mobile_after_fix.png"
          ∈ (VerifyDashboard.main w).1 ∧
        shotCount (VerifyDashboard.main w).1 = 1) ∧
    (∀ w : DemoWorld, ∀ v : String,
        w.launchOk = true → w.newPageOk = true → w.gotoOk = true →
        w.srcAttr = some v → w.screenshotOk = true →
        Ev.wroteScreenshot "verification/demo_page.png" ∈ (VerifyDemo.run w).1 ∧
        shotCount (VerifyDemo.run w).1 = 1) := by
  constructor
  · intro w h1 h2 h3 hs
    rcases hw : w.waitRes with u | e <;>
      simp [VerifyDashboard.main, VerifyDashboard.verify, shotCount, isShotEv,
        h1, h2, h3, hs, hw]
  · intro w v h1 h2 h3 ha hs
    simp [VerifyDemo.run, VerifyDemo.body, shotCount, isShotEv, h1, h2, h3, ha, hs]

/-- Claim C3, witness for the amended theorem at a concrete world. -/
theorem C3_screenshot_always_written_amended_witness :
    Ev.wroteScreenshot "verification/dashboard_mobile_after_fix.png"
      ∈ (VerifyDashboard.main (DashWorld.mk true true true (Except.error PyErr.timeoutError) true)).1 :=
  (C3_screenshot_always_written_amended.1
    (DashWorld.mk true true true (Except.error PyErr.timeoutError) true) rfl rfl rfl rfl).1

/-- Claim C4, confirmed: when the selector wait times out while everything
else succeeds, the dashboard run completes normally, the diagnostic
timeout message is printed, the wait used the 5000 ms bound, and the
screenshot is still written. -/
theorem C4_timeout_recovered :
    ∀ w : DashWorld, w.launchOk = true → w.newPageOk = true → w.gotoOk = true →
      w.waitRes = Except.error PyErr.timeoutError → w.screenshotOk = true →
      (VerifyDashboard.main w).2 = Except.ok () ∧
      Ev.printed "Timeout waiting for tips, taking screenshot anyway"
        ∈ (VerifyDashboard.main w).1 ∧
      Ev.waitedFor ".t-pending" 5000 ∈ (VerifyDashboard.main w).1 ∧
      Ev.wroteScreenshot "verification/dashboard_mobile_after_fix.png"
        ∈ (VerifyDashboard.main w).1 := by
  intro w h1 h2 h3 hw hs
  simp [VerifyDashboard.main, VerifyDashboard.verify, h1, h2, h3, hw, hs]

/-- Claim C4, witness at a concrete world. -/
theorem C4_timeout_recovered_witness :
    (VerifyDashboard.main (DashWorld.mk true true true (Except.error PyErr.timeoutError) true)).2
      = Except.ok () :=
  (C4_timeout_recovered (DashWorld.mk true true true (Except.error PyErr.timeoutError) true)
    rfl rfl rfl rfl rfl).1

/-- Claim C5, counterexample: the dashboard script never calls
`os.makedirs`, so at a fully successful world it writes its screenshot
without ever creating the containing directory, refuting the claim that
each script creates that directory first. -/
theorem C5_dashboard_no_mkdir_cex :
    mkdirCount (VerifyDashboard.main (DashWorld.mk true true true (Except.ok ()) true)).1 = 0 ∧
    shotCount (VerifyDashboard.main (DashWorld.mk true true true (Except.ok ()) true)).1 = 1 :=
  ⟨rfl, rfl⟩

/-- Claim C5, amended: only the demo script creates the containing
directory `verification` of its screenshot path, immediately before the
screenshot write; the dashboard script performs no directory creation at
all and relies on the directory already existing. -/
theorem C5_mkdir_amended :
    (∀ w : DemoWorld, ∀ v : String,
        w.launchOk = true → w.newPageOk = true → w.gotoOk = true →
        w.srcAttr = some v → w.screenshotOk = true →
        ∃ t1 t2, (VerifyDemo.run w).1
          = t1 ++ [Ev.madeDirs "verification",
                   Ev.wroteScreenshot "verification/demo_page.png"] ++ t2) ∧
    (∀ w : DashWorld, mkdirCount (VerifyDashboard.main w).1 = 0) := by
  constructor
  · intro w v h1 h2 h3 ha hs
    refine ⟨[Ev.printed ("Navigating to " ++ VerifyDemo.filePath w.cwd),
             Ev.navigated (VerifyDemo.filePath w.cwd),
             Ev.printed ("Video source: " ++ v),
             Ev.printed (if strContains v "assets/demo.mp4"
               then "SUCCESS: Video source is correct."
               else "FAILURE: Video source is incorrect.")],
            [Ev.printed "Screenshot saved to verification/demo_page.png",
             Ev.closedBrowser, Ev.stoppedPlaywright], ?_⟩
    simp [VerifyDemo.run, VerifyDemo.body, h1, h2, h3, ha, hs]
  · intro w
    rcases hw : w.waitRes with u | e <;> cases h1 : w.launchOk <;>
      cases h2 : w.newPageOk <;> cases h3 : w.gotoOk <;> cases hs : w.screenshotOk <;>
      simp [VerifyDashboard.main, VerifyDashboard.verify, mkdirCount, isMkdirEv,
        h1, h2, h3, hs, hw]

/-- Claim C5, witness for the amended theorem at a concrete world. -/
theorem C5_mkdir_amended_witness :
    ∃ t1 t2, (VerifyDemo.run (DemoWorld.mk "/w5" true true true (some "assets/demo.mp4") true)).1
      = t1 ++ [Ev.madeDirs "verification",
               Ev.wroteScreenshot "verification/demo_page.png"] ++ t2 :=
  C5_mkdir_amended.1 (DemoWorld.mk "/w5" true true true (some "assets/demo.mp4") true)
    "assets/demo.mp4" rfl rfl rfl rfl rfl

/-- Claim C6, counterexample: when navigation fails in the demo script the
error propagates and no screenshot is written, but `browser.close()` is
also skipped, refuting the part of the claim that says the browser session
is still closed. -/
theorem C6_demo_not_closed_cex :
    (VerifyDemo.run (DemoWorld.mk "/var" true true false none true)).2
      = Except.error PyErr.navigationError ∧
    shotCount (VerifyDemo.run (DemoWorld.mk "/var" true true false none true)).1 = 0 ∧
    closeCount (VerifyDemo.run (DemoWorld.mk "/var" true true false none true)).1 = 0 :=
  ⟨rfl, rfl, rfl⟩

/-- Claim C6, amended: on an unreachable target both scripts propagate the
navigation error and write no screenshot; the dashboard script still
closes the browser through its `finally`, while the demo script performs
no explicit close on that path and only the playwright context exit
runs. -/
theorem C6_navigation_error_amended :
    (∀ w : DashWorld, w.launchOk = true → w.newPageOk = true → w.gotoOk = false →
        (VerifyDashboard.main w).2 = Except.error PyErr.navigationError ∧
        shotCount (VerifyDashboard.main w).1 = 0 ∧
        closeCount (VerifyDashboard.main w).1 = 1) ∧
    (∀ w : DemoWorld, w.launchOk = true → w.newPageOk = true → w.gotoOk = false →
        (VerifyDemo.run w).2 = Except.error PyErr.navigationError ∧
        shotCount (VerifyDemo.run w).1 = 0 ∧
        closeCount (VerifyDemo.run w).1 = 0 ∧
        Ev.stoppedPlaywright ∈ (VerifyDemo.run w).1) := by
  constructor
  · intro w h1 h2 h3
    simp [VerifyDashboard.main, VerifyDashboard.verify, shotCount, isShotEv,
      closeCount, isCloseEv, h1, h2, h3]
  · intro w h1 h2 h3
    simp [VerifyDemo.run, VerifyDemo.body, shotCount, isShotEv,
      closeCount, isCloseEv, h1, h2, h3]

/-- Claim C6, witness for the amended theorem at a concrete world. -/
theorem C6_navigation_error_amended_witness :
    (VerifyDashboard.main (DashWorld.mk true true false (Except.ok ()) false)).2
      = Except.error PyErr.navigationError :=
  (C6_navigation_error_amended.1 (DashWorld.mk true true false (Except.ok ()) false)
    rfl rfl rfl).1

/-- Claim C7, counterexample: a `None` attribute value makes the demo
script raise `TypeError`, which is neither a launch nor a navigation
error, yet the process exits non-zero, refuting the only-launch-or-
navigation part of the claim. -/
theorem C7_exit_code_cex :
    VerifyDemo.exitCode (DemoWorld.mk "/opt" true true true none true) = 1 ∧
    (VerifyDemo.run (DemoWorld.mk "/opt" true true true none true)).2
      ≠ Except.error PyErr.launchError ∧
    (VerifyDemo.run (DemoWorld.mk "/opt" true true true none true)).2
      ≠ Except.error PyErr.navigationError := by
  refine ⟨rfl, ?_, ?_⟩ <;> intro h <;> exact absurd (Except.error.inj h) (by decide)

/-- Claim C7, amended: each script exits 0 exactly when every uncaught
step succeeded; in particular a logical FAILURE classification and a
swallowed selector-wait error still exit 0, while any propagated
exception, which besides launch and navigation errors also includes the
`TypeError` on a `None` attribute and a screenshot failure, exits
non-zero. -/
theorem C7_exit_code_amended :
    (∀ w : DemoWorld,
        VerifyDemo.exitCode w =
          if w.launchOk && w.newPageOk && w.gotoOk && w.srcAttr.isSome && w.screenshotOk
          then 0 else 1) ∧
    (∀ w : DashWorld,
        VerifyDashboard.exitCode w =
          if w.launchOk && w.newPageOk && w.gotoOk && w.screenshotOk then 0 else 1) := by
  constructor
  · intro w
    cases h1 : w.launchOk <;> cases h2 : w.newPageOk <;> cases h3 : w.gotoOk <;>
      rcases ha : w.srcAttr with _ | v <;> cases hs : w.screenshotOk <;>
      simp [VerifyDemo.exitCode, VerifyDemo.run, VerifyDemo.body, h1, h2, h3, ha, hs]
  · intro w
    rcases hw : w.waitRes with u | e <;> cases h1 : w.launchOk <;>
      cases h2 : w.newPageOk <;> cases h3 : w.gotoOk <;> cases hs : w.screenshotOk <;>
      simp [VerifyDashboard.exitCode, VerifyDashboard.main, VerifyDashboard.verify,
        h1, h2, h3, hs, hw]

/-- Claim C8, confirmed: the bare `except:` around the selector wait makes
the outcome of `verify` independent of which exception the wait raised;
whatever it was, the same diagnostic line is printed and execution reaches
the screenshot step, completing normally when the screenshot succeeds. -/
theorem C8_bare_except_swallows_all :
    ∀ w : DashWorld, ∀ e : PyErr, w.waitRes = Except.error e →
      VerifyDashboard.verify w
        = VerifyDashboard.verify
            (DashWorld.mk w.launchOk w.newPageOk w.gotoOk
              (Except.error PyErr.timeoutError) w.screenshotOk) ∧
      (w.gotoOk = true →
        Ev.printed "Timeout waiting for tips, taking screenshot anyway"
          ∈ (VerifyDashboard.verify w).1 ∧
        (w.screenshotOk = true → (VerifyDashboard.verify w).2 = Except.ok ())) := by
  intro w e hw
  refine ⟨?_, fun h3 => ⟨?_, fun hs => ?_⟩⟩
  · cases h3 : w.gotoOk <;> cases hs : w.screenshotOk <;>
      simp [VerifyDashboard.verify, hw, h3, hs]
  · cases hs : w.screenshotOk <;> simp [VerifyDashboard.verify, hw, h3, hs]
  · simp [VerifyDashboard.verify, hw, h3, hs]

/-- Claim C8, witness at a concrete world raising an arbitrary non-timeout
exception. -/
theorem C8_bare_except_swallows_all_witness :
    Ev.printed "Timeout waiting for tips, taking screenshot anyway"
      ∈ (VerifyDashboard.verify
          (DashWorld.mk true true true (Except.error (PyErr.otherError 3)) true)).1 :=
  ((C8_bare_except_swallows_all
      (DashWorld.mk true true true (Except.error (PyErr.otherError 3)) true)
      (PyErr.otherError 3) rfl).2 rfl).1

/-- Claim C9, confirmed: the demo target URL is exactly
`file:// ++ cwd ++ /docs/demo.html`, the run navigates to it, and distinct
working directories give distinct target URLs. -/
theorem C9_target_url_from_cwd :
    (∀ w : DemoWorld, w.launchOk = true → w.newPageOk = true → w.gotoOk = true →
        Ev.navigated ("file://" ++ w.cwd ++ "/docs/demo.html") ∈ (VerifyDemo.run w).1) ∧
    (∀ c1 c2 : String, c1 ≠ c2 →
        VerifyDemo.filePath c1 ≠ VerifyDemo.filePath c2) ∧
    (∀ c : String, VerifyDemo.filePath c = "file://" ++ c ++ "/docs/demo.html") := by
  refine ⟨?_, ?_, fun c => rfl⟩
  · intro w h1 h2 h3
    rcases ha : w.srcAttr with _ | v <;> cases hs : w.screenshotOk <;>
      simp [VerifyDemo.run, VerifyDemo.body, VerifyDemo.filePath, h1, h2, h3, ha, hs]
  · intro c1 c2 hne he
    apply hne
    have hd := congrArg String.data he
    simp only [VerifyDemo.filePath] at hd
    have h1 : "file://".data ++ (c1.data ++ "/docs/demo.html".data)
        = "file://".data ++ (c2.data ++ "/docs/demo.html".data) := by
      simpa [List.append_assoc] using hd
    exact String.ext (List.append_cancel_right (List.append_cancel_left h1))

/-- Claim C9, witness: at a concrete world the navigation event carries the
URL built from the working directory, and two concrete distinct working
directories give distinct URLs. -/
theorem C9_target_url_from_cwd_witness :
    Ev.navigated ("file://" ++ "/a" ++ "/docs/demo.html")
      ∈ (VerifyDemo.run (DemoWorld.mk "/a" true true true none true)).1 ∧
    VerifyDemo.filePath "/a" ≠ VerifyDemo.filePath "/b" :=
  ⟨C9_target_url_from_cwd.1 (DemoWorld.mk "/a" true true true none true) rfl rfl rfl,
   C9_target_url_from_cwd.2.1 "/a" "/b" (by decide)⟩

/-- Claim C10, confirmed: the SUCCESS classification is a substring test on
the attribute value, characterised by an arbitrary decomposition around the
expected string, and in particular it accepts values that strictly contain
the expected string rather than equal it. -/
theorem C10_substring_not_exact :
    (∀ w : DemoWorld, ∀ v : String,
        w.launchOk = true → w.newPageOk = true → w.gotoOk = true → w.srcAttr = some v →
        ((Ev.printed "SUCCESS: Video source is correct." ∈ (VerifyDemo.run w).1)
          ↔ ∃ l1 l2, v.data = l1 ++ ("assets/demo.mp4").data ++ l2)) ∧
    strContains "other/assets/demo.mp4?v=2" "assets/demo.mp4" = true ∧
    ("other/assets/demo.mp4?v=2" : String) ≠ "assets/demo.mp4" := by
  refine ⟨?_, by decide, by decide⟩
  intro w v h1 h2 h3 ha
  rw [demo_success_mem_iff w v h1 h2 h3 ha]
  exact strContains_iff v "assets/demo.mp4"

/-- Claim C10, witness: a value that strictly contains the expected string
is classified SUCCESS at a concrete world. -/
theorem C10_substring_not_exact_witness :
    Ev.printed "SUCCESS: Video source is correct."
      ∈ (VerifyDemo.run
          (DemoWorld.mk "/w10" true true true (some "other/assets/demo.mp4?v=2") true)).1 :=
  (C10_substring_not_exact.1
      (DemoWorld.mk "/w10" true true true (some "other/assets/demo.mp4?v=2") true)
      "other/assets/demo.mp4?v=2" rfl rfl rfl rfl).mpr
    ⟨"other/".data, "?v=2".data, by decide⟩
